import Mathlib

/-!
Shallow embedding of the waste-reporting lifecycle engine (src/App.js of the
repository) together with its Firestore-backed document store.  Pure fragments
of the JavaScript are translated into Lean functions; the asynchronous handlers
become explicit state transformers over a `Store` value holding the profile and
report documents.  Nullable JavaScript fields become `Option` fields; the JS
falsy coalescing idioms (`x || d`, `x ?? d`, `!x`) are translated explicitly at
each use site.
-/

namespace WasteAI

/-- Role strings written by the profile setup form (reporter, picker, monitor). -/
inductive Role where
  | reporter
  | picker
  | monitor
deriving Repr, DecidableEq

/-- The five status strings the engine writes into a report document:
Reported, Claimed, Pending Review, Completed, Rejected. -/
inductive Status where
  | Reported
  | Claimed
  | PendingReview
  | Completed
  | Rejected
deriving Repr, DecidableEq

/-- Coordinate pair as produced by the UI (strings via toFixed(4)). -/
structure Location where
  lat : String
  lon : String
deriving Repr, DecidableEq

/-- A profile document (path artifacts/APP_ID/users/UID/profiles/public).
Every field is optional because a Firestore document is a partial map;
`handleProfileSetup` writes all of them, but the settlement in
`handleFinalApproval` must cope with documents missing a point field. -/
structure Profile where
  name : Option String := none
  role : Option Role := none
  totalReporterPoints : Option Nat := none
  totalPickerPoints : Option Nat := none
  dateJoined : Option Nat := none
  publicUserId : Option String := none
deriving Repr, DecidableEq

/-- A report document (path artifacts/APP_ID/public/data/reports/ID),
with the fields written by handleReportSubmission, handleClaimReport,
handleSubmitProof and handleFinalApproval. -/
structure Report where
  reporterId : String := ""
  reporterName : String := ""
  location : Option Location := none
  originalImageUrl : Option String := none
  aiClassification : String := ""
  priority : String := ""
  baseReward : Option Nat := none
  status : Status := Status.Reported
  pickerId : Option String := none
  pickerName : Option String := none
  reportedAt : Option Nat := none
  reporterRewardIssued : Bool := false
  pickerRewardIssued : Bool := false
  cleanupPhotoUrl : Option String := none
  pickerLocation : Option Location := none
  proofSubmittedAt : Option Nat := none
  monitorId : Option String := none
  monitorName : Option String := none
  monitorMessage : Option String := none
  completedAt : Option Nat := none
deriving Repr, DecidableEq

/-- The document store: the profiles table keyed by user id and the reports
table keyed by report id. -/
structure Store where
  profiles : String → Option Profile
  reports : String → Option Report

/-- The empty store (no profile, no report documents). -/
def emptyStore : Store := { profiles := fun _ => none, reports := fun _ => none }

/-- updateDoc on a report path: applies the field update to the document at
the given id, leaving every other document untouched. -/
def storeUpdateReport (s : Store) (rid : String) (f : Report → Report) : Store :=
  { s with reports := fun k => if k = rid then (s.reports k).map f else s.reports k }

/-- Modelled from the spec: the store's write operation is a full or partial
document write (spec section 6), so a partial update to a missing profile
document is modelled as an upsert starting from the empty document.  The
Firestore client that actually backs the store is not part of src/. -/
def storeUpdateProfile (s : Store) (uid : String) (f : Profile → Profile) : Store :=
  { s with profiles := fun k => if k = uid then some (f ((s.profiles k).getD {})) else s.profiles k }

/-- setDoc on a profile path: whole-document overwrite. -/
def storeSetProfile (s : Store) (uid : String) (p : Profile) : Store :=
  { s with profiles := fun k => if k = uid then some p else s.profiles k }

/-- addDoc on the reports collection at a fresh generated id. -/
def storeAddReport (s : Store) (rid : String) (r : Report) : Store :=
  { s with reports := fun k => if k = rid then some r else s.reports k }

/-- The notification modal payload of alertUser (title, message, type). -/
inductive AlertType where
  | info
  | success
  | error
  | warning
deriving Repr, DecidableEq

structure Alert where
  title : String
  message : String
  kind : AlertType
deriving Repr, DecidableEq

/-! ### Advisory client (Gemini proxy) reply shape and reward suggestion -/

/-- One element of the parts array of a Gemini candidate content. -/
structure GeminiPart where
  text : Option String
deriving Repr, DecidableEq

/-- The content object of a Gemini candidate. -/
structure GeminiContent where
  parts : Option (List GeminiPart)
deriving Repr, DecidableEq

/-- One element of the candidates array of a Gemini reply. -/
structure GeminiCandidate where
  content : Option GeminiContent
deriving Repr, DecidableEq

/-- A parsed JSON reply from the Gemini proxy; a failed call (network error or
non-ok HTTP status, both handled in callGeminiProxy) is `none` at the use
sites below. -/
structure GeminiResponse where
  candidates : Option (List GeminiCandidate)
deriving Repr, DecidableEq

/-- callGeminiForText: extracts
candidates[0].content.parts[0].text from the proxy reply via optional
chaining, defaulting to the empty string. -/
def callGeminiForText (resp : Option GeminiResponse) : String :=
  ((((((resp.bind GeminiResponse.candidates).bind List.head?).bind
      GeminiCandidate.content).bind GeminiContent.parts).bind List.head?).bind
      GeminiPart.text).getD ""

/-- The first maximal run of decimal digits in a character list, as matched by
the regular expression for one-or-more digits. -/
def firstDigitRunAux : List Char → Option (List Char)
  | [] => none
  | c :: cs =>
    if c.isDigit then some (c :: cs.takeWhile Char.isDigit)
    else firstDigitRunAux cs

/-- The first maximal run of decimal digits in a string, or none when the
string contains no digit. -/
def firstDigitRun (s : String) : Option (List Char) :=
  firstDigitRunAux s.data

/-- parseInt on a digit-only match: base-10 value of the digit characters. -/
def parseDigits (l : List Char) : Nat :=
  l.foldl (fun n c => n * 10 + (c.toNat - 48)) 0

/-- getRewardSuggestionRemote: matches the first digit run of the reply text
and parses it; on no match (which includes every failed call, whose extracted
text is empty) it returns the fixed fallback 10. -/
def getRewardSuggestionRemote (resp : Option GeminiResponse) : Nat :=
  match firstDigitRun (callGeminiForText resp) with
  | some ds => parseDigits ds
  | none => 10

/-! ### Reward computation (handleFinalApproval, lines 394 to 395) -/

/-- rewardReporter: report.baseReward with the JS falsy coalescing to 10,
which replaces both a missing field and the value 0 by 10. -/
def rewardReporterOf (report : Report) : Nat :=
  match report.baseReward with
  | some b => if b = 0 then 10 else b
  | none => 10

/-- rewardPicker: three times the reporter reward. -/
def rewardPickerOf (report : Report) : Nat :=
  rewardReporterOf report * 3

/-! ### Transaction programs

`handleFinalApproval` runs its document writes through runTransaction.  The
body is embedded as a small first-order program so that both its effect on the
store and its read and write access order can be computed from one definition.
-/

/-- The kind of a single store access made inside a transaction body. -/
inductive TxAccess where
  | read
  | write
deriving Repr, DecidableEq

/-- A transaction body: a sequence of profile reads (transaction.get) and
report or profile updates (transaction.update), finished by done. -/
inductive TxProg : Type where
  | done : TxProg
  | getProfile (uid : String) (k : Option Profile → TxProg)
  | updateReport (rid : String) (f : Report → Report) (k : TxProg)
  | updateProfile (uid : String) (f : Profile → Profile) (k : TxProg)

/-- Modelled from the spec: transaction(body) executes the body with
read-then-write semantics across multiple paths, atomically (spec section 6).
Reads are served from the snapshot taken when the transaction starts; writes
accumulate and are committed together.  The Firestore client implementing this
is not part of src/. -/
def runTxAux (s0 : Store) : TxProg → Store → Store
  | TxProg.done, acc => acc
  | TxProg.getProfile uid k, acc => runTxAux s0 (k (s0.profiles uid)) acc
  | TxProg.updateReport rid f k, acc => runTxAux s0 k (storeUpdateReport acc rid f)
  | TxProg.updateProfile uid f k, acc => runTxAux s0 k (storeUpdateProfile acc uid f)

/-- Run a transaction body against a store and commit its writes. -/
def runTx (p : TxProg) (s : Store) : Store :=
  runTxAux s p s

/-- The ordered list of read and write accesses a transaction body performs
(reads served from the given snapshot). -/
def txLog (s0 : Store) : TxProg → List TxAccess
  | TxProg.done => []
  | TxProg.getProfile uid k => TxAccess.read :: txLog s0 (k (s0.profiles uid))
  | TxProg.updateReport _ _ k => TxAccess.write :: txLog s0 k
  | TxProg.updateProfile _ _ k => TxAccess.write :: txLog s0 k

/-- The store's read-then-write contract on a transaction access log:
every read precedes every write. -/
def readsBeforeWrites : List TxAccess → Bool
  | [] => true
  | TxAccess.read :: t => readsBeforeWrites t
  | TxAccess.write :: t => t.all (fun a => a = TxAccess.write)

/-- Modelled from the spec: a transaction runner that enforces the
read-then-write contract the way the Firestore SDK does, rejecting any read
issued after a write has been staged; a rejected transaction commits nothing
(none). -/
def runTxStrictAux (s0 : Store) : TxProg → Store → Bool → Option Store
  | TxProg.done, acc, _ => some acc
  | TxProg.getProfile uid k, acc, wrote =>
    if wrote then none else runTxStrictAux s0 (k (s0.profiles uid)) acc wrote
  | TxProg.updateReport rid f k, acc, _ =>
    runTxStrictAux s0 k (storeUpdateReport acc rid f) true
  | TxProg.updateProfile uid f k, acc, _ =>
    runTxStrictAux s0 k (storeUpdateProfile acc uid f) true

/-- Run a transaction body under the contract-enforcing runner. -/
def runTxStrict (p : TxProg) (s : Store) : Option Store :=
  runTxStrictAux s p s false

/-- Modelled from the spec: a transaction interrupted after the given number
of body steps commits nothing and leaves the store in its last committed
state (spec sections 4.2 and 7). -/
def runTxFuel (s0 : Store) : Nat → TxProg → Store → Option Store
  | _, TxProg.done, acc => some acc
  | 0, _, _ => none
  | n + 1, TxProg.getProfile uid k, acc => runTxFuel s0 n (k (s0.profiles uid)) acc
  | n + 1, TxProg.updateReport rid f k, acc => runTxFuel s0 n k (storeUpdateReport acc rid f)
  | n + 1, TxProg.updateProfile uid f k, acc => runTxFuel s0 n k (storeUpdateProfile acc uid f)

/-- The store observed after a transaction that is interrupted when its fuel
runs out: the original store on interruption, the committed store otherwise. -/
def runTxInterrupted (fuel : Nat) (p : TxProg) (s : Store) : Store :=
  match runTxFuel s fuel p s with
  | some s' => s'
  | none => s

/-! ### Engine handlers -/

/-- handleProfileSetup (lines 301 to 319): a whole-document setDoc of the
profile with both point totals 0; silently returns when there is no user id. -/
def handleProfileSetup (userId : Option String) (name : String) (role : Role)
    (now : Nat) (s : Store) : Store × Option Alert :=
  match userId with
  | none => (s, none)
  | some uid =>
    let profileData : Profile :=
      { name := some name, role := some role,
        totalReporterPoints := some 0, totalPickerPoints := some 0,
        dateJoined := some now, publicUserId := some uid }
    (storeSetProfile s uid profileData,
     some { title := "Setup Success!", message := "Profile created.", kind := AlertType.success })

/-- The report document built by handleReportSubmission (lines 340 to 354).
classification and priority come from classifyWasteLocal, whose random draw is
passed in as data; the reward suggestion reply is passed as the parsed proxy
response.  baseReward starts at 10 and is replaced by the remote suggestion
unless that suggestion is falsy (0). -/
def mkNewReport (userId userName : String) (location : Location)
    (base64Image : String) (classification priority : String)
    (resp : Option GeminiResponse) (now : Nat) : Report :=
  let suggested := getRewardSuggestionRemote resp
  let baseReward := if suggested = 0 then 10 else suggested
  { reporterId := userId, reporterName := userName,
    location := some location, originalImageUrl := some base64Image,
    aiClassification := classification, priority := priority,
    baseReward := some baseReward, status := Status.Reported,
    pickerId := none, pickerName := none, reportedAt := some now,
    reporterRewardIssued := false, pickerRewardIssued := false }

/-- handleReportSubmission (lines 322 to 361): rejects when the session or the
profile is not ready, otherwise adds the new report document at a fresh id and
reports success.  A failed or malformed advisory reply never produces an error
alert here; it only changes the baseReward fallback inside mkNewReport. -/
def handleReportSubmission (userId : Option String) (profileLoaded : Bool)
    (userName : String) (location : Location) (base64Image : String)
    (classification priority : String) (resp : Option GeminiResponse)
    (freshId : String) (now : Nat) (s : Store) : Store × Alert :=
  match userId, profileLoaded with
  | some uid, true =>
    let r := mkNewReport uid userName location base64Image classification priority resp now
    (storeAddReport s freshId r,
     { title := "Report Submitted!",
       message := "Classified: " ++ classification ++ ". Reward: "
         ++ toString (r.baseReward.getD 0) ++ " pts. ID: " ++ freshId,
       kind := AlertType.success })
  | _, _ =>
    (s, { title := "Submission Failed",
          message := "Please finish setup and wait for profile to load.",
          kind := AlertType.error })

/-- handleClaimReport (lines 364 to 374): after the profile-readiness guard it
unconditionally updates the report to Claimed with the caller as picker;
no status or role precondition is checked here. -/
def handleClaimReport (userId : Option String) (profileLoaded : Bool)
    (userName : String) (reportId : String) (s : Store) : Store × Alert :=
  match userId, profileLoaded with
  | some uid, true =>
    (storeUpdateReport s reportId (fun r =>
       { r with status := Status.Claimed, pickerId := some uid, pickerName := some userName }),
     { title := "Report Claimed!", message := "Proceed to cleanup.", kind := AlertType.success })
  | _, _ =>
    (s, { title := "Claim Failed", message := "Profile not ready.", kind := AlertType.error })

/-- handleSubmitProof (lines 376 to 387): after the profile-readiness guard it
unconditionally updates the report to Pending Review with the proof photo, the
picker location and the submission time; no status or actor precondition is
checked here. -/
def handleSubmitProof (userId : Option String) (profileLoaded : Bool)
    (reportId : String) (base64Image : String) (location : Location)
    (now : Nat) (s : Store) : Store × Alert :=
  match userId, profileLoaded with
  | some _, true =>
    (storeUpdateReport s reportId (fun r =>
       { r with
         status := Status.PendingReview, cleanupPhotoUrl := some base64Image,
         pickerLocation := some location, proofSubmittedAt := some now }),
     { title := "Proof Submitted!", message := "Pending monitor review.", kind := AlertType.info })
  | _, _ =>
    (s, { title := "Submission Failed", message := "Profile not ready.", kind := AlertType.error })

/-- The report field update staged by the approve branch of the transaction
(lines 399 to 407). -/
def approveReportUpdate (monitorUid monitorName : String)
    (rewardReporter rewardPicker now : Nat) (r : Report) : Report :=
  { r with
    status := Status.Completed, monitorId := some monitorUid,
    monitorName := some monitorName, completedAt := some now,
    reporterRewardIssued := true, pickerRewardIssued := true,
    monitorMessage := some ("Thank you for cleaning. Rewards: Reporter +"
      ++ toString rewardReporter ++ ", Picker +" ++ toString rewardPicker ++ ".") }

/-- The approve branch of the transaction body (lines 398 to 415), in the
exact order the source issues its calls: first the report update, then the
reporter profile read and update, then the picker profile read and update.
Each profile's current point total is coalesced from a missing document,
a missing field or 0 to 0 before the delta is added. -/
def approveBody (reportId reporterId pickerKey monitorUid monitorName : String)
    (rewardReporter rewardPicker now : Nat) : TxProg :=
  TxProg.updateReport reportId
    (approveReportUpdate monitorUid monitorName rewardReporter rewardPicker now)
    (TxProg.getProfile reporterId (fun rp =>
      let currentReporterPoints := (rp.bind Profile.totalReporterPoints).getD 0
      TxProg.updateProfile reporterId
        (fun p => { p with totalReporterPoints := some (currentReporterPoints + rewardReporter) })
        (TxProg.getProfile pickerKey (fun pp =>
          let currentPickerPoints := (pp.bind Profile.totalPickerPoints).getD 0
          TxProg.updateProfile pickerKey
            (fun p => { p with totalPickerPoints := some (currentPickerPoints + rewardPicker) })
            TxProg.done))))

/-- The reject branch of the transaction body (lines 418 to 425): one report
update setting Rejected, the monitor identity and message, and clearing the
picker assignment.  It stages no profile access at all. -/
def rejectBody (reportId monitorUid monitorName : String) : TxProg :=
  TxProg.updateReport reportId
    (fun r =>
      { r with
        status := Status.Rejected, monitorId := some monitorUid,
        monitorName := some monitorName,
        monitorMessage := some "Proof rejected. Please resubmit.",
        pickerId := none, pickerName := none })
    TxProg.done

/-- The two monitor decisions of handleFinalApproval. -/
inductive ApprovalType where
  | approve
  | reject
deriving Repr, DecidableEq

/-- handleFinalApproval (lines 389 to 433): silently returns unless the caller
is a monitor with a loaded profile; computes the rewards from the report
snapshot it was handed; then runs the approve or reject transaction body.
The picker profile path interpolates a null pickerId as the literal string
null, exactly as the JS template string does. -/
def handleFinalApproval (userRole : Option Role) (profileLoaded : Bool)
    (userId userName : String) (reportId : String) (report : Report)
    (approvalType : ApprovalType) (now : Nat) (s : Store) : Store × Option Alert :=
  if userRole ≠ some Role.monitor ∨ profileLoaded = false then (s, none)
  else
    let rewardReporter := rewardReporterOf report
    let rewardPicker := rewardPickerOf report
    let pickerKey := report.pickerId.getD "null"
    if approvalType = ApprovalType.approve then
      (runTx (approveBody reportId report.reporterId pickerKey userId userName
          rewardReporter rewardPicker now) s,
       some { title := "Report Approved",
              message := "Rewards issued: Reporter +" ++ toString rewardReporter
                ++ ", Picker +" ++ toString rewardPicker ++ ".",
              kind := AlertType.success })
    else
      (runTx (rejectBody reportId userId userName) s,
       some { title := "Report Rejected", message := "Proof rejected. Report re-opened.",
              kind := AlertType.error })

/-! ### UI action guards (ReportItem, lines 531 to 564)

The status and actor preconditions of the transition table are enforced only
here, by whether the corresponding button is rendered at all; the handlers
above perform no such checks. -/

/-- JS falsiness of an optional string field: absent or empty. -/
def isFalsyStr (x : Option String) : Bool :=
  decide (x = none) || decide (x = some "")

/-- The Claim Job button is rendered exactly for a picker viewing a report
whose status is Reported (line 548). -/
def claimRendered (userRole : Option Role) (r : Report) : Bool :=
  decide (userRole = some Role.picker) && decide (r.status = Status.Reported)

/-- The Submit Proof button is rendered exactly for the assigned picker of a
Claimed report that has no cleanup photo yet (line 549). -/
def proofRendered (userRole : Option Role) (userId : String) (r : Report) : Bool :=
  decide (userRole = some Role.picker) && decide (r.status = Status.Claimed)
    && decide (r.pickerId = some userId) && isFalsyStr r.cleanupPhotoUrl

/-- The Approve and Reject buttons are rendered exactly for a monitor viewing
a report whose status is Pending Review (lines 551 to 554). -/
def monitorButtonsRendered (userRole : Option Role) (r : Report) : Bool :=
  decide (userRole = some Role.monitor) && decide (r.status = Status.PendingReview)

/-- The four report actions a rendered ReportItem can dispatch. -/
inductive UiAction where
  | claimJob
  | submitProof (base64Image : String) (location : Location)
  | approveDecision
  | rejectDecision
deriving Repr

/-- The program's action surface for one report: an action reaches its handler
only when ReportItem renders the corresponding button for the current role and
report snapshot; otherwise nothing is invoked. -/
def reportItemDispatch (userRole : Option Role) (userId : Option String)
    (userName : String) (profileLoaded : Bool) (reportId : String)
    (action : UiAction) (now : Nat) (s : Store) : Store × Option Alert :=
  match s.reports reportId with
  | none => (s, none)
  | some r =>
    match action with
    | UiAction.claimJob =>
      if claimRendered userRole r then
        let out := handleClaimReport userId profileLoaded userName reportId s
        (out.1, some out.2)
      else (s, none)
    | UiAction.submitProof img loc =>
      if proofRendered userRole (userId.getD "") r then
        let out := handleSubmitProof userId profileLoaded reportId img loc now s
        (out.1, some out.2)
      else (s, none)
    | UiAction.approveDecision =>
      if monitorButtonsRendered userRole r then
        handleFinalApproval userRole profileLoaded (userId.getD "") userName
          reportId r ApprovalType.approve now s
      else (s, none)
    | UiAction.rejectDecision =>
      if monitorButtonsRendered userRole r then
        handleFinalApproval userRole profileLoaded (userId.getD "") userName
          reportId r ApprovalType.reject now s
      else (s, none)

/-- The edges of the transition table of spec section 4.1. -/
def statusEdge : Status → Status → Bool
  | Status.Reported, Status.Claimed => true
  | Status.Claimed, Status.PendingReview => true
  | Status.PendingReview, Status.Completed => true
  | Status.PendingReview, Status.Rejected => true
  | _, _ => false

/-! ### Point total accessors -/

/-- The totalReporterPoints field of a user's profile document, if present. -/
def reporterPointsIn (s : Store) (uid : String) : Option Nat :=
  (s.profiles uid).bind Profile.totalReporterPoints

/-- The totalPickerPoints field of a user's profile document, if present. -/
def pickerPointsIn (s : Store) (uid : String) : Option Nat :=
  (s.profiles uid).bind Profile.totalPickerPoints

/-! ### A concrete engine run

One full lifecycle executed on concrete inputs: three users set up profiles,
the reporter submits a report, the picker claims it and submits proof, and a
monitor decides.  These states ground the counterexamples and witnesses. -/

/-- State after the reporter profile is created. -/
def exS1 : Store := (handleProfileSetup (some "u1") "Asha" Role.reporter 1 emptyStore).1

/-- State after the picker profile is created. -/
def exS2 : Store := (handleProfileSetup (some "p1") "Ravi" Role.picker 1 exS1).1

/-- State after the reporter submits a report (advisory call failed, so the
reward suggestion falls back). -/
def exS3 : Store :=
  (handleReportSubmission (some "u1") true "Asha" { lat := "30.1", lon := "78.1" }
    "img1" "Mixed Recyclables" "Medium" none "r1" 2 exS2).1

/-- State after the picker claims the report. -/
def exS4 : Store := (handleClaimReport (some "p1") true "Ravi" "r1" exS3).1

/-- State after the picker submits cleanup proof. -/
def exS5 : Store :=
  (handleSubmitProof (some "p1") true "r1" "img2" { lat := "30.2", lon := "78.2" } 3 exS4).1

/-- The report document pending review, as the monitor's UI snapshot holds it. -/
def exRep5 : Report := (exS5.reports "r1").getD {}

/-- State after the monitor approves. -/
def exS6 : Store :=
  (handleFinalApproval (some Role.monitor) true "m1" "Mira" "r1" exRep5
    ApprovalType.approve 4 exS5).1

/-- State after the reporter runs profile setup a second time, overwriting the
settled profile. -/
def exS7 : Store := (handleProfileSetup (some "u1") "Asha" Role.reporter 5 exS6).1

/-- State after the monitor rejects instead (branching from exS5). -/
def exS6r : Store :=
  (handleFinalApproval (some Role.monitor) true "m1" "Mira" "r1" exRep5
    ApprovalType.reject 4 exS5).1

/-- The store after a monitor with a loaded profile approves a report. -/
def afterApprove (uid uname rid : String) (r : Report) (now : Nat) (s : Store) : Store :=
  (handleFinalApproval (some Role.monitor) true uid uname rid r ApprovalType.approve now s).1

/-- The store after a monitor with a loaded profile rejects a report. -/
def afterReject (uid uname rid : String) (r : Report) (now : Nat) (s : Store) : Store :=
  (handleFinalApproval (some Role.monitor) true uid uname rid r ApprovalType.reject now s).1

/-! ### Unfolding lemmas for the store primitives and the transaction runs -/

theorem storeUpdateReport_profiles (s : Store) (rid : String) (f : Report → Report) :
    (storeUpdateReport s rid f).profiles = s.profiles := rfl

theorem storeUpdateProfile_reports (s : Store) (uid : String) (f : Profile → Profile) :
    (storeUpdateProfile s uid f).reports = s.reports := rfl

theorem storeUpdateReport_same (s : Store) (rid : String) (f : Report → Report) :
    (storeUpdateReport s rid f).reports rid = (s.reports rid).map f := by
  simp [storeUpdateReport]

theorem storeUpdateReport_other (s : Store) (rid k : String) (f : Report → Report)
    (h : k ≠ rid) : (storeUpdateReport s rid f).reports k = s.reports k := by
  simp [storeUpdateReport, h]

theorem storeUpdateProfile_same (s : Store) (uid : String) (f : Profile → Profile) :
    (storeUpdateProfile s uid f).profiles uid = some (f ((s.profiles uid).getD {})) := by
  simp [storeUpdateProfile]

theorem storeUpdateProfile_other (s : Store) (uid k : String) (f : Profile → Profile)
    (h : k ≠ uid) : (storeUpdateProfile s uid f).profiles k = s.profiles k := by
  simp [storeUpdateProfile, h]

/-- The committed effect of the approve transaction body: the report update
followed by the two profile field updates, each profile's current total read
from the transaction-start snapshot. -/
theorem runTx_approve_eq (s : Store) (rid repId pk m mn : String) (rr rp now : Nat) :
    runTx (approveBody rid repId pk m mn rr rp now) s =
      storeUpdateProfile
        (storeUpdateProfile (storeUpdateReport s rid (approveReportUpdate m mn rr rp now))
          repId (fun p => { p with
            totalReporterPoints := some ((reporterPointsIn s repId).getD 0 + rr) }))
        pk (fun p => { p with
          totalPickerPoints := some ((pickerPointsIn s pk).getD 0 + rp) }) := rfl

/-- The committed effect of the reject transaction body: a single report
update, no profile access. -/
theorem runTx_reject_eq (s : Store) (rid m mn : String) :
    runTx (rejectBody rid m mn) s =
      storeUpdateReport s rid (fun r =>
        { r with
          status := Status.Rejected, monitorId := some m,
          monitorName := some mn,
          monitorMessage := some "Proof rejected. Please resubmit.",
          pickerId := none, pickerName := none }) := rfl

/-- Unfolding of the claim handler when the readiness guard passes. -/
theorem handleClaimReport_eq (uid uname rid : String) (s : Store) :
    (handleClaimReport (some uid) true uname rid s).1
      = storeUpdateReport s rid (fun r =>
          { r with
            status := Status.Claimed, pickerId := some uid,
            pickerName := some uname }) := rfl

/-- Unfolding of the proof handler when the readiness guard passes. -/
theorem handleSubmitProof_eq (uid rid img : String) (loc : Location) (now : Nat) (s : Store) :
    (handleSubmitProof (some uid) true rid img loc now s).1
      = storeUpdateReport s rid (fun r =>
          { r with
            status := Status.PendingReview, cleanupPhotoUrl := some img,
            pickerLocation := some loc, proofSubmittedAt := some now }) := rfl

/-- Inverting a successful single-report update at its own key. -/
theorem report_map_inv (s : Store) (rid : String) (f : Report → Report) (r r' : Report)
    (h0 : s.reports rid = some r) (h : (s.reports rid).map f = some r') : r' = f r := by
  rw [h0] at h
  exact (Option.some_inj.mp h).symm

/-- Unfolding of the approve handler when the monitor guard passes. -/
theorem handleFinalApproval_approve_eq (uid uname rid : String) (r : Report)
    (now : Nat) (s : Store) :
    afterApprove uid uname rid r now s =
      runTx (approveBody rid r.reporterId (r.pickerId.getD "null") uid uname
        (rewardReporterOf r) (rewardPickerOf r) now) s := by
  simp [afterApprove, handleFinalApproval]

/-- Unfolding of the reject handler when the monitor guard passes. -/
theorem handleFinalApproval_reject_eq (uid uname rid : String) (r : Report)
    (now : Nat) (s : Store) :
    afterReject uid uname rid r now s = runTx (rejectBody rid uid uname) s := by
  simp [afterReject, handleFinalApproval]

/-! ### Claim theorems -/

/-- Claim C1: for every report in status Pending Review, the approve operation
sets the report's status to Completed with both reward-issued flags true, and
writes current plus delta into each profile's point total, where each current
total is the one read within the transaction (from the transaction-start
snapshot of the store). -/
theorem c1_approve_settlement (s : Store) (rid : String) (r : Report)
    (pk uid uname : String) (now : Nat)
    (h0 : s.reports rid = some r) (h1 : r.status = Status.PendingReview)
    (h2 : r.pickerId = some pk) :
    ((afterApprove uid uname rid r now s).reports rid).map Report.status
        = some Status.Completed
    ∧ ((afterApprove uid uname rid r now s).reports rid).map Report.reporterRewardIssued
        = some true
    ∧ ((afterApprove uid uname rid r now s).reports rid).map Report.pickerRewardIssued
        = some true
    ∧ reporterPointsIn (afterApprove uid uname rid r now s) r.reporterId
        = some ((reporterPointsIn s r.reporterId).getD 0 + rewardReporterOf r)
    ∧ pickerPointsIn (afterApprove uid uname rid r now s) pk
        = some ((pickerPointsIn s pk).getD 0 + rewardPickerOf r) := by
  rw [handleFinalApproval_approve_eq, h2, Option.getD_some, runTx_approve_eq]
  refine ⟨?_, ?_, ?_, ?_, ?_⟩
  · simp [storeUpdateProfile_reports, storeUpdateReport_same, h0, approveReportUpdate]
  · simp [storeUpdateProfile_reports, storeUpdateReport_same, h0, approveReportUpdate]
  · simp [storeUpdateProfile_reports, storeUpdateReport_same, h0, approveReportUpdate]
  · by_cases hc : r.reporterId = pk
    · rw [hc]
      simp [reporterPointsIn, storeUpdateProfile_same]
    · simp [reporterPointsIn, storeUpdateProfile_other _ _ _ _ hc, storeUpdateProfile_same]
  · simp [pickerPointsIn, storeUpdateProfile_same]

/-- Witness for C1: the concrete pipeline state exS5 with its pending report
exRep5 satisfies the hypotheses, and approval settles exactly as stated. -/
theorem c1_approve_settlement_witness :
    (exS5.reports "r1" = some exRep5
      ∧ exRep5.status = Status.PendingReview
      ∧ exRep5.pickerId = some "p1")
    ∧ (((afterApprove "m1" "Mira" "r1" exRep5 4 exS5).reports "r1").map Report.status
          = some Status.Completed
      ∧ ((afterApprove "m1" "Mira" "r1" exRep5 4 exS5).reports "r1").map Report.reporterRewardIssued
          = some true
      ∧ ((afterApprove "m1" "Mira" "r1" exRep5 4 exS5).reports "r1").map Report.pickerRewardIssued
          = some true
      ∧ reporterPointsIn (afterApprove "m1" "Mira" "r1" exRep5 4 exS5) exRep5.reporterId
          = some ((reporterPointsIn exS5 exRep5.reporterId).getD 0 + rewardReporterOf exRep5)
      ∧ pickerPointsIn (afterApprove "m1" "Mira" "r1" exRep5 4 exS5) "p1"
          = some ((pickerPointsIn exS5 "p1").getD 0 + rewardPickerOf exRep5)) :=
  ⟨⟨by decide, by decide, by decide⟩,
   c1_approve_settlement exS5 "r1" exRep5 "p1" "m1" "Mira" 4 (by decide) (by decide) (by decide)⟩

/-- Claim C2: the claim asserts that the approve transaction body obeys the
store's read-then-write contract (all reads before any write).  It does not:
for every store and every argument vector, the body's access log is
write, read, write, read, write, which fails the contract; under the
contract-enforcing runner the whole approval transaction is rejected and
commits nothing, and a transaction interrupted mid-body (here after three of
its five operations) also leaves the store exactly as it was.  The reject
body, by contrast, obeys the contract. -/
theorem c2_transaction_order (s : Store) (rid repId pk m mn : String) (rr rp now : Nat) :
    txLog s (approveBody rid repId pk m mn rr rp now)
      = [TxAccess.write, TxAccess.read, TxAccess.write, TxAccess.read, TxAccess.write]
    ∧ readsBeforeWrites (txLog s (approveBody rid repId pk m mn rr rp now)) = false
    ∧ runTxStrict (approveBody rid repId pk m mn rr rp now) s = none
    ∧ runTxInterrupted 3 (approveBody rid repId pk m mn rr rp now) s = s
    ∧ readsBeforeWrites (txLog s (rejectBody rid m mn)) = true :=
  ⟨rfl, rfl, rfl, rfl, rfl⟩

/-- Claim C4: the picker reward is exactly three times the reporter reward for
every report; the reporter reward equals the report's baseReward whenever that
field holds a nonzero value, and is 10 when the field is unset; and every
report the engine itself creates carries a nonzero baseReward, so the falsy
coalescing of baseReward 0 to 10 is unreachable for engine-created reports. -/
theorem c4_reward_policy (r r0 rz : Report) (b : Nat)
    (uid uname cls pri img : String) (loc : Location)
    (resp : Option GeminiResponse) (now : Nat)
    (h1 : r.baseReward = some b) (h2 : b ≠ 0)
    (h3 : r0.baseReward = none) (h4 : rz.baseReward = some 0) :
    rewardReporterOf r = b
    ∧ rewardPickerOf r = 3 * rewardReporterOf r
    ∧ rewardReporterOf r0 = 10
    ∧ rewardPickerOf r0 = 3 * rewardReporterOf r0
    ∧ rewardPickerOf rz = 3 * rewardReporterOf rz
    ∧ (mkNewReport uid uname loc img cls pri resp now).baseReward.getD 0 ≠ 0 := by
  refine ⟨?_, ?_, ?_, ?_, ?_, ?_⟩
  · simp [rewardReporterOf, h1, h2]
  · simp [rewardPickerOf, Nat.mul_comm]
  · simp [rewardReporterOf, h3]
  · simp [rewardPickerOf, Nat.mul_comm]
  · simp [rewardPickerOf, Nat.mul_comm]
  · simp only [mkNewReport]
    split
    · simp
    · simpa using by omega

/-- Witness for C4 at concrete reports with baseReward 20, unset, and 0, and
an engine-created report from a failed advisory reply. -/
theorem c4_reward_policy_witness :
    ({ baseReward := some 20 : Report }.baseReward = some 20 ∧ (20 : Nat) ≠ 0
      ∧ ({} : Report).baseReward = none
      ∧ { baseReward := some 0 : Report }.baseReward = some 0)
    ∧ (rewardReporterOf { baseReward := some 20 } = 20
      ∧ rewardPickerOf { baseReward := some 20 } = 3 * rewardReporterOf { baseReward := some 20 }
      ∧ rewardReporterOf {} = 10
      ∧ rewardPickerOf {} = 3 * rewardReporterOf {}
      ∧ rewardPickerOf { baseReward := some 0 } = 3 * rewardReporterOf { baseReward := some 0 }
      ∧ (mkNewReport "u1" "Asha" { lat := "30.1", lon := "78.1" } "img1"
          "Mixed Recyclables" "Medium" none 2).baseReward.getD 0 ≠ 0) :=
  ⟨⟨by decide, by decide, by decide, by decide⟩,
   c4_reward_policy { baseReward := some 20 } {} { baseReward := some 0 } 20
     "u1" "Asha" "Mixed Recyclables" "Medium" "img1" { lat := "30.1", lon := "78.1" }
     none 2 (by decide) (by decide) (by decide) (by decide)⟩

/-- Claim C5: for every report in status Pending Review, rejection is a single
document update that sets status Rejected, clears pickerId and pickerName,
sets the monitor identity and message, changes no profile document at all,
and changes no other report document. -/
theorem c5_reject_single_document (s : Store) (rid rid2 : String) (r : Report)
    (uid uname : String) (now : Nat)
    (h0 : s.reports rid = some r) (h1 : r.status = Status.PendingReview)
    (h2 : rid2 ≠ rid) :
    (afterReject uid uname rid r now s).reports rid
      = some { r with
          status := Status.Rejected, pickerId := none, pickerName := none,
          monitorId := some uid, monitorName := some uname,
          monitorMessage := some "Proof rejected. Please resubmit." }
    ∧ (afterReject uid uname rid r now s).profiles = s.profiles
    ∧ (afterReject uid uname rid r now s).reports rid2 = s.reports rid2 := by
  rw [handleFinalApproval_reject_eq, runTx_reject_eq]
  exact ⟨by rw [storeUpdateReport_same, h0]; rfl, rfl, storeUpdateReport_other _ _ _ _ h2⟩

/-- Witness for C5: rejecting the concrete pending report exRep5. -/
theorem c5_reject_single_document_witness :
    (exS5.reports "r1" = some exRep5 ∧ exRep5.status = Status.PendingReview
      ∧ ("r2" : String) ≠ "r1")
    ∧ ((afterReject "m1" "Mira" "r1" exRep5 4 exS5).reports "r1"
        = some { exRep5 with
            status := Status.Rejected, pickerId := none, pickerName := none,
            monitorId := some "m1", monitorName := some "Mira",
            monitorMessage := some "Proof rejected. Please resubmit." }
      ∧ (afterReject "m1" "Mira" "r1" exRep5 4 exS5).profiles = exS5.profiles
      ∧ (afterReject "m1" "Mira" "r1" exRep5 4 exS5).reports "r2" = exS5.reports "r2") :=
  ⟨⟨by decide, by decide, by decide⟩,
   c5_reject_single_document exS5 "r1" "r2" exRep5 "m1" "Mira" 4
     (by decide) (by decide) (by decide)⟩

/-- Claim C8: whenever the advisory reward-estimation reply failed or contains
no numeric content, report creation still completes with baseReward 10 and the
user sees only the success notification, never an error. -/
theorem c8_reward_fallback (uid uname cls pri img fid : String) (loc : Location)
    (resp : Option GeminiResponse) (now : Nat) (s : Store)
    (h : firstDigitRun (callGeminiForText resp) = none) :
    ((handleReportSubmission (some uid) true uname loc img cls pri resp fid now s).1.reports fid).bind
        Report.baseReward = some 10
    ∧ (handleReportSubmission (some uid) true uname loc img cls pri resp fid now s).2.kind
        = AlertType.success
    ∧ (handleReportSubmission (some uid) true uname loc img cls pri resp fid now s).2.title
        = "Report Submitted!" := by
  refine ⟨?_, rfl, rfl⟩
  simp [handleReportSubmission, mkNewReport, getRewardSuggestionRemote, h, storeAddReport]

/-- Witness for C8: a failed advisory call (no reply at all) still creates the
report with baseReward 10 and a success notification. -/
theorem c8_reward_fallback_witness :
    firstDigitRun (callGeminiForText none) = none
    ∧ (((handleReportSubmission (some "u1") true "Asha" { lat := "30.1", lon := "78.1" }
          "img1" "Mixed Recyclables" "Medium" none "r1" 2 emptyStore).1.reports "r1").bind
            Report.baseReward = some 10
      ∧ (handleReportSubmission (some "u1") true "Asha" { lat := "30.1", lon := "78.1" }
          "img1" "Mixed Recyclables" "Medium" none "r1" 2 emptyStore).2.kind = AlertType.success
      ∧ (handleReportSubmission (some "u1") true "Asha" { lat := "30.1", lon := "78.1" }
          "img1" "Mixed Recyclables" "Medium" none "r1" 2 emptyStore).2.title
          = "Report Submitted!") :=
  ⟨by decide,
   c8_reward_fallback "u1" "Asha" "Mixed Recyclables" "Medium" "img1" "r1"
     { lat := "30.1", lon := "78.1" } none 2 emptyStore (by decide)⟩

/-- Claim C9: rejection writes only status, pickerId, pickerName, monitorId,
monitorName and monitorMessage; every other field of the report, and in
particular cleanupPhotoUrl, keeps its previous value. -/
theorem c9_reject_frame (s : Store) (rid : String) (r : Report)
    (uid uname : String) (now : Nat) (h0 : s.reports rid = some r) :
    ((afterReject uid uname rid r now s).reports rid).map Report.cleanupPhotoUrl
        = some r.cleanupPhotoUrl
    ∧ ((afterReject uid uname rid r now s).reports rid).map Report.reporterId
        = some r.reporterId
    ∧ ((afterReject uid uname rid r now s).reports rid).map Report.reporterName
        = some r.reporterName
    ∧ ((afterReject uid uname rid r now s).reports rid).map Report.location
        = some r.location
    ∧ ((afterReject uid uname rid r now s).reports rid).map Report.originalImageUrl
        = some r.originalImageUrl
    ∧ ((afterReject uid uname rid r now s).reports rid).map Report.aiClassification
        = some r.aiClassification
    ∧ ((afterReject uid uname rid r now s).reports rid).map Report.priority
        = some r.priority
    ∧ ((afterReject uid uname rid r now s).reports rid).map Report.baseReward
        = some r.baseReward
    ∧ ((afterReject uid uname rid r now s).reports rid).map Report.reportedAt
        = some r.reportedAt
    ∧ ((afterReject uid uname rid r now s).reports rid).map Report.reporterRewardIssued
        = some r.reporterRewardIssued
    ∧ ((afterReject uid uname rid r now s).reports rid).map Report.pickerRewardIssued
        = some r.pickerRewardIssued
    ∧ ((afterReject uid uname rid r now s).reports rid).map Report.pickerLocation
        = some r.pickerLocation
    ∧ ((afterReject uid uname rid r now s).reports rid).map Report.proofSubmittedAt
        = some r.proofSubmittedAt
    ∧ ((afterReject uid uname rid r now s).reports rid).map Report.completedAt
        = some r.completedAt := by
  rw [handleFinalApproval_reject_eq, runTx_reject_eq]
  simp [storeUpdateReport_same, h0]

/-- Witness for C9 on the concrete pending report: in particular the cleanup
photo survives rejection. -/
theorem c9_reject_frame_witness :
    exS5.reports "r1" = some exRep5
    ∧ ((afterReject "m1" "Mira" "r1" exRep5 4 exS5).reports "r1").map Report.cleanupPhotoUrl
        = some exRep5.cleanupPhotoUrl :=
  ⟨by decide,
   (c9_reject_frame exS5 "r1" exRep5 "m1" "Mira" 4 (by decide)).1⟩

/-- Claim C10: when a profile document is missing, lacks its point field, or
holds the falsy value 0, the settlement does not fail: it treats the current
total as 0, writes exactly the reward delta as the new total, and still
reports success. -/
theorem c10_falsy_profile_settlement (s : Store) (rid : String) (r : Report)
    (pk uid uname : String) (now : Nat)
    (h2 : r.pickerId = some pk)
    (hr : (reporterPointsIn s r.reporterId).getD 0 = 0)
    (hp : (pickerPointsIn s pk).getD 0 = 0) :
    reporterPointsIn (afterApprove uid uname rid r now s) r.reporterId
        = some (rewardReporterOf r)
    ∧ pickerPointsIn (afterApprove uid uname rid r now s) pk
        = some (rewardPickerOf r)
    ∧ ((handleFinalApproval (some Role.monitor) true uid uname rid r
          ApprovalType.approve now s).2).map Alert.kind = some AlertType.success := by
  simp only [reporterPointsIn] at hr
  simp only [pickerPointsIn] at hp
  refine ⟨?_, ?_, ?_⟩
  · rw [handleFinalApproval_approve_eq, h2, Option.getD_some, runTx_approve_eq]
    by_cases hc : r.reporterId = pk
    · rw [hc]
      rw [hc] at hr
      simp [reporterPointsIn, storeUpdateProfile_same, hr]
    · simp [reporterPointsIn, storeUpdateProfile_other _ _ _ _ hc, storeUpdateProfile_same, hr]
  · rw [handleFinalApproval_approve_eq, h2, Option.getD_some, runTx_approve_eq]
    simp [pickerPointsIn, storeUpdateProfile_same, hp]
  · simp [handleFinalApproval]

/-- A pending report whose reporter and picker have no profile documents yet. -/
def exRep9 : Report :=
  { reporterId := "u9", pickerId := some "p9", baseReward := some 20,
    status := Status.PendingReview }

/-- Witness for C10: approving against the empty store (no profile documents
at all) credits exactly the two deltas. -/
theorem c10_falsy_profile_settlement_witness :
    (exRep9.pickerId = some "p9"
      ∧ (reporterPointsIn emptyStore exRep9.reporterId).getD 0 = 0
      ∧ (pickerPointsIn emptyStore "p9").getD 0 = 0)
    ∧ (reporterPointsIn (afterApprove "m1" "Mira" "r9" exRep9 7 emptyStore) exRep9.reporterId
        = some (rewardReporterOf exRep9)
      ∧ pickerPointsIn (afterApprove "m1" "Mira" "r9" exRep9 7 emptyStore) "p9"
        = some (rewardPickerOf exRep9)
      ∧ ((handleFinalApproval (some Role.monitor) true "m1" "Mira" "r9" exRep9
          ApprovalType.approve 7 emptyStore).2).map Alert.kind = some AlertType.success) :=
  ⟨⟨by decide, by decide, by decide⟩,
   c10_falsy_profile_settlement emptyStore "r9" exRep9 "p9" "m1" "Mira" 7
     (by decide) (by decide) (by decide)⟩

/-- Commuting the empty-document default with the reporter points projection. -/
theorem getD_empty_totalReporterPoints (o : Option Profile) :
    (o.getD {}).totalReporterPoints = o.bind Profile.totalReporterPoints := by
  cases o <;> rfl

/-- Commuting the empty-document default with the picker points projection. -/
theorem getD_empty_totalPickerPoints (o : Option Profile) :
    (o.getD {}).totalPickerPoints = o.bind Profile.totalPickerPoints := by
  cases o <;> rfl

/-- Claim C3, counterexample: the claim says an action attempted for a
role/state combination outside the transition table leaves the report
unchanged and produces a failure signal.  But handleClaimReport checks no
status at all: invoked on the concrete report r1 while it is in Pending
Review (as happens when a second picker clicks a stale Claim button), it
overwrites the assigned picker, moves the status back to Claimed, and reports
success, not failure. -/
theorem c3_out_of_table_counterexample :
    (exS5.reports "r1").map Report.status = some Status.PendingReview
    ∧ ((handleClaimReport (some "p2") true "Qadir" "r1" exS5).1.reports "r1").map Report.status
        = some Status.Claimed
    ∧ ((handleClaimReport (some "p2") true "Qadir" "r1" exS5).1.reports "r1").bind Report.pickerId
        = some "p2"
    ∧ (handleClaimReport (some "p2") true "Qadir" "r1" exS5).2.kind = AlertType.success := by
  refine ⟨by decide, by decide, by decide, by decide⟩

/-- Claim C3 as amended: the status and actor preconditions of the transition
table are enforced solely by the UI rendering guards of ReportItem, not by the
handlers.  When actions reach the handlers only through rendered buttons,
every report status change follows the transition table: the report either
stays as it was or moves along a table edge. -/
theorem c3_ui_gated_transitions (userRole : Option Role) (userId : Option String)
    (userName : String) (profileLoaded : Bool) (reportId : String) (a : UiAction)
    (now : Nat) (s : Store) (r r' : Report)
    (h0 : s.reports reportId = some r)
    (h1 : (reportItemDispatch userRole userId userName profileLoaded reportId a now
        s).1.reports reportId = some r') :
    r' = r ∨ statusEdge r.status r'.status = true := by
  have hback : s.reports reportId = some r' → r' = r := fun hb => by
    rw [h0] at hb
    exact (Option.some_inj.mp hb).symm
  cases a with
  | claimJob =>
    simp only [reportItemDispatch, h0] at h1
    by_cases hg : claimRendered userRole r = true
    · have hcopy := hg
      simp only [claimRendered, Bool.and_eq_true, decide_eq_true_eq] at hcopy
      rw [if_pos hg] at h1
      rcases userId with _ | uid
      · exact Or.inl (hback h1)
      · cases profileLoaded
        · exact Or.inl (hback h1)
        · rw [handleClaimReport_eq, storeUpdateReport_same] at h1
          right
          rw [report_map_inv s reportId _ r r' h0 h1, hcopy.2]
          rfl
    · rw [if_neg hg] at h1
      exact Or.inl (hback h1)
  | submitProof img loc =>
    simp only [reportItemDispatch, h0] at h1
    by_cases hg : proofRendered userRole (userId.getD "") r = true
    · have hcopy := hg
      simp only [proofRendered, Bool.and_eq_true, decide_eq_true_eq] at hcopy
      rw [if_pos hg] at h1
      rcases userId with _ | uid
      · exact Or.inl (hback h1)
      · cases profileLoaded
        · exact Or.inl (hback h1)
        · rw [handleSubmitProof_eq, storeUpdateReport_same] at h1
          right
          rw [report_map_inv s reportId _ r r' h0 h1, hcopy.1.1.2]
          rfl
    · rw [if_neg hg] at h1
      exact Or.inl (hback h1)
  | approveDecision =>
    simp only [reportItemDispatch, h0] at h1
    by_cases hg : monitorButtonsRendered userRole r = true
    · have hcopy := hg
      simp only [monitorButtonsRendered, Bool.and_eq_true, decide_eq_true_eq] at hcopy
      rw [if_pos hg, hcopy.1] at h1
      cases profileLoaded
      · exact Or.inl (hback h1)
      · have h2 : (afterApprove (userId.getD "") userName reportId r now s).reports reportId
            = some r' := h1
        rw [handleFinalApproval_approve_eq, runTx_approve_eq] at h2
        simp only [storeUpdateProfile_reports] at h2
        rw [storeUpdateReport_same] at h2
        right
        rw [report_map_inv s reportId _ r r' h0 h2, hcopy.2]
        rfl
    · rw [if_neg hg] at h1
      exact Or.inl (hback h1)
  | rejectDecision =>
    simp only [reportItemDispatch, h0] at h1
    by_cases hg : monitorButtonsRendered userRole r = true
    · have hcopy := hg
      simp only [monitorButtonsRendered, Bool.and_eq_true, decide_eq_true_eq] at hcopy
      rw [if_pos hg, hcopy.1] at h1
      cases profileLoaded
      · exact Or.inl (hback h1)
      · have h2 : (afterReject (userId.getD "") userName reportId r now s).reports reportId
            = some r' := h1
        rw [handleFinalApproval_reject_eq, runTx_reject_eq] at h2
        rw [storeUpdateReport_same] at h2
        right
        rw [report_map_inv s reportId _ r r' h0 h2, hcopy.2]
        rfl
    · rw [if_neg hg] at h1
      exact Or.inl (hback h1)

/-- Witness for the amended C3 at a concrete dispatch: the picker claims the
freshly reported r1 through the rendered button. -/
theorem c3_ui_gated_transitions_witness :
    (exS3.reports "r1" = some ((exS3.reports "r1").getD {})
      ∧ (reportItemDispatch (some Role.picker) (some "p1") "Ravi" true "r1"
          UiAction.claimJob 3 exS3).1.reports "r1"
        = some (((reportItemDispatch (some Role.picker) (some "p1") "Ravi" true "r1"
            UiAction.claimJob 3 exS3).1.reports "r1").getD {}))
    ∧ (((reportItemDispatch (some Role.picker) (some "p1") "Ravi" true "r1"
          UiAction.claimJob 3 exS3).1.reports "r1").getD {} = (exS3.reports "r1").getD {}
      ∨ statusEdge ((exS3.reports "r1").getD {}).status
          (((reportItemDispatch (some Role.picker) (some "p1") "Ravi" true "r1"
            UiAction.claimJob 3 exS3).1.reports "r1").getD {}).status = true) :=
  ⟨⟨by decide, by decide⟩,
   c3_ui_gated_transitions (some Role.picker) (some "p1") "Ravi" true "r1"
     UiAction.claimJob 3 exS3 ((exS3.reports "r1").getD {})
     (((reportItemDispatch (some Role.picker) (some "p1") "Ravi" true "r1"
        UiAction.claimJob 3 exS3).1.reports "r1").getD {}) (by decide) (by decide)⟩

/-- The approve transaction never lowers any profile's coalesced reporter
point total. -/
theorem approve_reporterPoints_mono (s : Store) (rid repId pk m mn : String)
    (rr rp now : Nat) (u : String) :
    (reporterPointsIn (runTx (approveBody rid repId pk m mn rr rp now) s) u).getD 0
      ≥ (reporterPointsIn s u).getD 0 := by
  rw [runTx_approve_eq]
  by_cases hup : u = pk
  · rw [hup]
    by_cases hpr : pk = repId
    · rw [hpr]
      simp [reporterPointsIn, storeUpdateProfile_same]
    · simp [reporterPointsIn, storeUpdateProfile_same,
        storeUpdateProfile_other _ _ _ _ hpr, storeUpdateReport_profiles,
        getD_empty_totalReporterPoints]
  · rw [reporterPointsIn, storeUpdateProfile_other _ _ _ _ hup]
    by_cases hur : u = repId
    · rw [hur]
      simp [reporterPointsIn, storeUpdateProfile_same]
    · rw [storeUpdateProfile_other _ _ _ _ hur, storeUpdateReport_profiles]
      exact Nat.le_refl _

/-- The approve transaction never lowers any profile's coalesced picker point
total. -/
theorem approve_pickerPoints_mono (s : Store) (rid repId pk m mn : String)
    (rr rp now : Nat) (u : String) :
    (pickerPointsIn (runTx (approveBody rid repId pk m mn rr rp now) s) u).getD 0
      ≥ (pickerPointsIn s u).getD 0 := by
  rw [runTx_approve_eq]
  by_cases hup : u = pk
  · rw [hup]
    simp [pickerPointsIn, storeUpdateProfile_same]
  · rw [pickerPointsIn, storeUpdateProfile_other _ _ _ _ hup]
    by_cases hur : u = repId
    · rw [hur]
      simp [pickerPointsIn, storeUpdateProfile_same, storeUpdateReport_profiles,
        getD_empty_totalPickerPoints]
    · rw [storeUpdateProfile_other _ _ _ _ hur, storeUpdateReport_profiles]
      exact Nat.le_refl _

/-- Claim C6, counterexample: the claim says profile point totals never
decrease and are mutated only by the approval settlement.  But running
profile setup a second time (which the source allows: setDoc simply
overwrites) resets the totals to 0: in the concrete pipeline the reporter
holds 10 points after the settlement and 0 again after re-running setup, a
strict decrease caused by an operation other than the settlement. -/
theorem c6_setup_reset_counterexample :
    reporterPointsIn exS6 "u1" = some 10
    ∧ reporterPointsIn exS7 "u1" = some 0
    ∧ (reporterPointsIn exS7 "u1").getD 0 < (reporterPointsIn exS6 "u1").getD 0 := by
  refine ⟨by decide, by decide, by decide⟩

/-- Claim C6 as amended: point totals are non-negative (they live in Nat and
every written value is a sum of naturals); claim, proof submission, report
creation and rejection leave every profile document untouched; approval never
lowers either coalesced total of any profile; and profile setup overwrites the
profile with both totals 0 — so totals are monotone along every engine
sequence that does not repeat profile setup for a settled user, and they are
mutated by exactly two operations: the approval settlement and profile
setup. -/
theorem c6_points_mutation_sources (s : Store) (u : String) (userId : Option String)
    (pl : Bool) (uname rid img cls pri fid mid mnm nm : String) (loc : Location)
    (resp : Option GeminiResponse) (now : Nat) (role : Option Role) (rep : Report)
    (ro : Role) :
    (handleClaimReport userId pl uname rid s).1.profiles u = s.profiles u
    ∧ (handleSubmitProof userId pl rid img loc now s).1.profiles u = s.profiles u
    ∧ (handleReportSubmission userId pl uname loc img cls pri resp fid now s).1.profiles u
        = s.profiles u
    ∧ (handleFinalApproval role pl mid mnm rid rep ApprovalType.reject now s).1.profiles u
        = s.profiles u
    ∧ (reporterPointsIn (handleFinalApproval role pl mid mnm rid rep
          ApprovalType.approve now s).1 u).getD 0 ≥ (reporterPointsIn s u).getD 0
    ∧ (pickerPointsIn (handleFinalApproval role pl mid mnm rid rep
          ApprovalType.approve now s).1 u).getD 0 ≥ (pickerPointsIn s u).getD 0
    ∧ (handleProfileSetup (some u) nm ro now s).1.profiles u
        = some { name := some nm, role := some ro, totalReporterPoints := some 0,
                 totalPickerPoints := some 0, dateJoined := some now,
                 publicUserId := some u } := by
  refine ⟨?_, ?_, ?_, ?_, ?_, ?_, ?_⟩
  · rcases userId with _ | uid <;> cases pl <;>
      simp [handleClaimReport, storeUpdateReport]
  · rcases userId with _ | uid <;> cases pl <;>
      simp [handleSubmitProof, storeUpdateReport]
  · rcases userId with _ | uid <;> cases pl <;>
      simp [handleReportSubmission, storeAddReport]
  · by_cases hgd : role ≠ some Role.monitor ∨ pl = false
    · simp [handleFinalApproval, hgd]
    · rcases not_or.mp hgd with ⟨h3, h4⟩
      rw [not_ne_iff] at h3
      have h4' : pl = true := by
        cases pl
        · exact absurd rfl h4
        · rfl
      rw [h3, h4']
      show (afterReject mid mnm rid rep now s).profiles u = s.profiles u
      rw [handleFinalApproval_reject_eq, runTx_reject_eq, storeUpdateReport_profiles]
  · by_cases hgd : role ≠ some Role.monitor ∨ pl = false
    · simp [handleFinalApproval, hgd]
    · rcases not_or.mp hgd with ⟨h3, h4⟩
      rw [not_ne_iff] at h3
      have h4' : pl = true := by
        cases pl
        · exact absurd rfl h4
        · rfl
      rw [h3, h4']
      show (reporterPointsIn (afterApprove mid mnm rid rep now s) u).getD 0
        ≥ (reporterPointsIn s u).getD 0
      rw [handleFinalApproval_approve_eq]
      exact approve_reporterPoints_mono s rid rep.reporterId (rep.pickerId.getD "null")
        mid mnm (rewardReporterOf rep) (rewardPickerOf rep) now u
  · by_cases hgd : role ≠ some Role.monitor ∨ pl = false
    · simp [handleFinalApproval, hgd]
    · rcases not_or.mp hgd with ⟨h3, h4⟩
      rw [not_ne_iff] at h3
      have h4' : pl = true := by
        cases pl
        · exact absurd rfl h4
        · rfl
      rw [h3, h4']
      show (pickerPointsIn (afterApprove mid mnm rid rep now s) u).getD 0
        ≥ (pickerPointsIn s u).getD 0
      rw [handleFinalApproval_approve_eq]
      exact approve_pickerPoints_mono s rid rep.reporterId (rep.pickerId.getD "null")
        mid mnm (rewardReporterOf rep) (rewardPickerOf rep) now u
  · simp [handleProfileSetup, storeSetProfile]

/-- Claim C7: the claim says a rejected report re-enters the claimable pool
and a subsequent claim by a different picker succeeds.  In the code, after
rejection the report's status is Rejected and its picker fields are cleared,
but ReportItem renders the Claim button only while status is Reported, so the
UI dispatch offers no claim action at all on the rejected report (no store
change, no notification) — even though handleClaimReport itself, if it could
be reached, would happily move the report to Claimed.  The rejection banner
text still tells users the report was re-opened for claim. -/
theorem c7_rejected_unclaimable :
    (exS6r.reports "r1").map Report.status = some Status.Rejected
    ∧ (exS6r.reports "r1").bind Report.pickerId = none
    ∧ claimRendered (some Role.picker) ((exS6r.reports "r1").getD {}) = false
    ∧ (reportItemDispatch (some Role.picker) (some "p2") "Qadir" true "r1"
        UiAction.claimJob 9 exS6r).1.reports "r1" = exS6r.reports "r1"
    ∧ (reportItemDispatch (some Role.picker) (some "p2") "Qadir" true "r1"
        UiAction.claimJob 9 exS6r).2 = none
    ∧ ((handleClaimReport (some "p2") true "Qadir" "r1" exS6r).1.reports "r1").map
        Report.status = some Status.Claimed := by
  refine ⟨by decide, by decide, by decide, by decide, by decide, by decide⟩

end WasteAI
